import Mathlib

/-!
Shallow embedding of the authorization / session slice of the plantNet
server (`src/index.js`): the Token Service (`POST /jwt`, `verifyToken`,
`GET /logout`), the Role Gate (`verifyAdmin`, `verifySeller`), and the
Account Lifecycle endpoints (`POST /user`, `PATCH /became-seller-request/:email`,
`PATCH /user/role/update/:email`, `GET /all-users`).

Conventions of the embedding:
* The MongoDB `users` collection is a `List UserRecord`; `findOne {email}`
  is the first list element with that email, `updateOne` with a `$set`
  updates the first matching element (no-op when none matches), and
  `insertOne` appends.
* Timestamps are abstract instants (`Nat`); all `new Date()` calls made
  while serving one request yield the same instant `now`.
* A signed JWT is modelled symbolically: the token records its payload,
  the secret it was signed with, its issue instant and its lifetime, and
  verification succeeds exactly when the secrets agree and the token has
  not expired (the cryptographic guarantee of `jsonwebtoken`, an external
  collaborator).
* A Mongo document's missing field is an `Option` that is `none`. The
  `POST /user` handler inserts `req.body` wholesale after overwriting
  `role`, `created_at` and `last_loggedIn`, so a client-supplied `status`
  field passes through into the created record; the record's `status` is
  `none` exactly when the request body carried no `status`.
* HTTP error responses are `(status code, message)` pairs in `Except`.
-/

/-- The identity claim signed into a session token: `{ email }`
(the body of `POST /jwt`, src/index.js line 84). -/
structure Claim where
  email : String
  deriving Repr, DecidableEq

/-- Symbolic model of a token produced by `jwt.sign(payload, secret, {expiresIn})`
(src/index.js lines 85-87). -/
structure Token where
  payload : Claim
  signedWith : String
  issuedAt : Nat
  lifetime : Nat
  deriving Repr, DecidableEq

/-- Failure modes of `jwt.verify`. -/
inductive JwtError where
  | invalidSignature
  | expired
  deriving Repr, DecidableEq

/-- `jwt.sign(email, process.env.ACCESS_TOKEN_SECRET, { expiresIn: "365d" })`
(src/index.js lines 85-87): 365 days of 86400 seconds. -/
def jwtSign (payload : Claim) (secret : String) (now : Nat) : Token :=
  { payload := payload, signedWith := secret, issuedAt := now, lifetime := 365 * 86400 }

/-- `jwt.verify(token, secret, cb)` (src/index.js line 28): the callback gets an
error when the signature does not check out or the token is expired, and the
decoded payload otherwise. -/
def jwtVerify (t : Token) (secret : String) (now : Nat) : Except JwtError Claim :=
  if t.signedWith ≠ secret then .error .invalidSignature
  else if t.issuedAt + t.lifetime < now then .error .expired
  else .ok t.payload

/-- `verifyToken` middleware (src/index.js lines 22-36): 401 when the cookie is
absent, 401 when `jwt.verify` errors, otherwise the decoded claim becomes
`req.user`. -/
def verifyToken (cookieToken : Option Token) (secret : String) (now : Nat) :
    Except (Nat × String) Claim :=
  match cookieToken with
  | none => .error (401, "unauthorized access")
  | some t =>
    match jwtVerify t secret now with
    | .error _ => .error (401, "unauthorized access")
    | .ok decoded => .ok decoded

/-- One document of the `users` collection. `status` is `none` until a
`$set` writes the field; the profile fields other than `email` that
`POST /user` copies from the request body are represented by `name`. -/
structure UserRecord where
  email : String
  name : String
  role : String
  status : Option String
  created_at : Nat
  last_loggedIn : Nat
  deriving Repr, DecidableEq

/-- `userCollection.findOne({email})`: first stored document with this email. -/
def findOne (db : List UserRecord) (email : String) : Option UserRecord :=
  db.find? (fun u => u.email == email)

/-- `userCollection.updateOne({email}, {$set: ...})`: rewrite the first
document whose email matches; no-op when none matches. -/
def updateFirst (db : List UserRecord) (email : String) (f : UserRecord → UserRecord) :
    List UserRecord :=
  match db with
  | [] => []
  | u :: rest => if u.email == email then f u :: rest else u :: updateFirst rest email f

/-- The stored role of an email, when a record exists. -/
def roleOf (db : List UserRecord) (email : String) : Option String :=
  (findOne db email).map (fun u => u.role)

/-- `verifyAdmin` middleware (src/index.js lines 54-64):
`if (!user || user?.role !== "admin") return 403`. -/
def verifyAdmin (db : List UserRecord) (email : String) : Except (Nat × String) Unit :=
  match findOne db email with
  | none => .error (403, "Admin only actions")
  | some user => if user.role ≠ "admin" then .error (403, "Admin only actions") else .ok ()

/-- `verifySeller` middleware (src/index.js lines 67-77):
`if (!user || user?.role !== "seller") return 403`. -/
def verifySeller (db : List UserRecord) (email : String) : Except (Nat × String) Unit :=
  match findOne db email with
  | none => .error (403, "Seller only actions")
  | some user => if user.role ≠ "seller" then .error (403, "Seller only actions") else .ok ()

/-- The role-gate pattern common to `verifyAdmin` and `verifySeller`
(the spec's `requireRole(identity, expectedRole)`), with the expected role
and the rejection message as parameters. -/
def requireRole (db : List UserRecord) (email expectedRole msg : String) :
    Except (Nat × String) Unit :=
  match findOne db email with
  | none => .error (403, msg)
  | some user => if user.role ≠ expectedRole then .error (403, msg) else .ok ()

/-- The options object of a `res.cookie` / `res.clearCookie` call.
A field the source does not put in the object literal is `none`. -/
structure CookieOptions where
  httpOnly : Option Bool
  secure : Option Bool
  sameSite : Option String
  maxAge : Option Nat
  deriving Repr, DecidableEq

/-- The options `POST /jwt` passes to `res.cookie` (src/index.js lines 89-93). -/
def jwtCookieOptions (production : Bool) : CookieOptions :=
  { httpOnly := some true
    secure := some production
    sameSite := some (if production then "none" else "strict")
    maxAge := none }

/-- The options `GET /logout` passes to `res.clearCookie`
(src/index.js lines 100-104): `maxAge: 0`, `secure`, `sameSite` — and no
`httpOnly` entry. -/
def logoutCookieOptions (production : Bool) : CookieOptions :=
  { httpOnly := none
    secure := some production
    sameSite := some (if production then "none" else "strict")
    maxAge := some 0 }

/-- Response of `POST /jwt`: the cookie it sets and the JSON body. -/
structure JwtResponse where
  cookieName : String
  cookieValue : Token
  cookieOpts : CookieOptions
  success : Bool
  deriving Repr, DecidableEq

/-- `POST /jwt` (src/index.js lines 83-95): no middleware; signs the request
body wholesale and sets it as the `token` cookie, answering `{success:true}`. -/
def postJwt (body : Claim) (secret : String) (now : Nat) (production : Bool) : JwtResponse :=
  { cookieName := "token"
    cookieValue := jwtSign body secret now
    cookieOpts := jwtCookieOptions production
    success := true }

/-- Response of `GET /logout`: the cookie it clears and the JSON body. -/
structure LogoutResponse where
  clearedCookieName : String
  clearOpts : CookieOptions
  success : Bool
  deriving Repr, DecidableEq

/-- `GET /logout` (src/index.js lines 97-109): clears the `token` cookie with
`maxAge: 0` and the environment-dependent `secure`/`sameSite` attributes. -/
def getLogout (production : Bool) : LogoutResponse :=
  { clearedCookieName := "token"
    clearOpts := logoutCookieOptions production
    success := true }

/-- The request body of `POST /user`: a user profile. The client may send any
fields, in particular a `role` and a `status` of its choosing; `name` stands
for the other profile fields. -/
structure UserBody where
  email : String
  name : String
  role : Option String
  status : Option String
  deriving Repr, DecidableEq

/-- Outcome reported by `POST /user`: the result of `updateOne` when the user
already existed, of `insertOne` otherwise. -/
inductive UpsertOutcome where
  | updated
  | inserted
  deriving Repr, DecidableEq

/-- `POST /user` (src/index.js lines 155-172): `userData` is `req.body` with
`role` overwritten to `"customer"` and `created_at` / `last_loggedIn` stamped
with the current time — every other body field, a client-supplied `status`
included, is left as sent. Then, if a record with this email exists, `$set`
only `last_loggedIn` on it, else insert `userData` wholesale. -/
def postUser (db : List UserRecord) (body : UserBody) (now : Nat) :
    List UserRecord × UpsertOutcome :=
  let userData : UserRecord :=
    { email := body.email
      name := body.name
      role := "customer"
      status := body.status
      created_at := now
      last_loggedIn := now }
  match findOne db body.email with
  | some _ =>
    (updateFirst db body.email (fun u => { u with last_loggedIn := now }), .updated)
  | none => (db ++ [userData], .inserted)

/-- `GET /user/role/:email` (src/index.js lines 176-181): 404 when no record,
else `{role}`. -/
def getUserRole (db : List UserRecord) (email : String) : Except (Nat × String) String :=
  match findOne db email with
  | none => .error (404, "User not Found")
  | some user => .ok user.role

/-- `GET /all-users` (src/index.js lines 228-236): `verifyToken`, then
`verifyAdmin` on the decoded email, then every record whose email differs
from the caller's. -/
def allUsers (db : List UserRecord) (cookieToken : Option Token) (secret : String)
    (now : Nat) : Except (Nat × String) (List UserRecord) :=
  match verifyToken cookieToken secret now with
  | .error e => .error e
  | .ok user =>
    match verifyAdmin db user.email with
    | .error e => .error e
    | .ok _ => .ok (db.filter (fun u => u.email != user.email))

/-- `PATCH /user/role/update/:email` (src/index.js lines 240-253): `verifyToken`,
then `verifyAdmin`, then `$set {role, status: "verified"}` on the path email's
record. Returns the (possibly updated) collection alongside the response. -/
def updateUserRole (db : List UserRecord) (cookieToken : Option Token) (secret : String)
    (now : Nat) (pathEmail newRole : String) :
    List UserRecord × Except (Nat × String) Unit :=
  match verifyToken cookieToken secret now with
  | .error e => (db, .error e)
  | .ok user =>
    match verifyAdmin db user.email with
    | .error e => (db, .error e)
    | .ok _ =>
      (updateFirst db pathEmail (fun u => { u with role := newRole, status := some "verified" }),
       .ok ())

/-- `PATCH /became-seller-request/:email` (src/index.js lines 257-268):
`verifyToken` only; then `$set {status: "requested"}` on the path email's
record. The decoded claim is never compared against the path email. -/
def becameSellerRequest (db : List UserRecord) (cookieToken : Option Token) (secret : String)
    (now : Nat) (pathEmail : String) :
    List UserRecord × Except (Nat × String) Unit :=
  match verifyToken cookieToken secret now with
  | .error e => (db, .error e)
  | .ok _user =>
    (updateFirst db pathEmail (fun u => { u with status := some "requested" }), .ok ())

/-! Concrete fixtures used by witnesses and counterexamples. -/

/-- A stored customer record for `b@x.com`. -/
def recB : UserRecord :=
  { email := "b@x.com", name := "B", role := "customer", status := none,
    created_at := 0, last_loggedIn := 0 }

/-- A token signed for `a@x.com` with secret `"secret"` at instant 0. -/
def tokenA : Token := jwtSign ⟨"a@x.com"⟩ "secret" 0

/-- A `POST /user` body for `a@x.com` that claims `role = "admin"` and sends
no `status` field. -/
def bodyA : UserBody :=
  { email := "a@x.com", name := "A", role := some "admin", status := none }

/-- A `POST /user` body for `a@x.com` that sends `status = "verified"`. -/
def bodyS : UserBody :=
  { email := "a@x.com", name := "A", role := some "admin", status := some "verified" }

/-! Helper lemmas about the collection operations. -/

theorem findOne_nil (e : String) : findOne [] e = none := rfl

theorem findOne_cons (u : UserRecord) (rest : List UserRecord) (e : String) :
    findOne (u :: rest) e = if u.email = e then some u else findOne rest e := by
  by_cases h : u.email = e
  · simp [findOne, h]
  · simp [findOne, h]

theorem findOne_append (db₁ db₂ : List UserRecord) (e : String) :
    findOne (db₁ ++ db₂) e = (findOne db₁ e).or (findOne db₂ e) := by
  simp [findOne, List.find?_append]

/-- `updateFirst` with an email-preserving update commutes with lookup:
looking up the targeted email sees the update applied, any other email is
untouched. -/
theorem findOne_updateFirst (f : UserRecord → UserRecord)
    (hf : ∀ u, (f u).email = u.email) (db : List UserRecord) (e e' : String) :
    findOne (updateFirst db e f) e' =
      if e = e' then (findOne db e').map f else findOne db e' := by
  induction db with
  | nil => simp [findOne, updateFirst]
  | cons u rest ih =>
    by_cases h1 : u.email = e
    · have hfe : (f u).email = e := by rw [hf u, h1]
      by_cases h2 : e = e'
      · subst h2
        simp [updateFirst, h1, findOne_cons, hfe]
      · simp [updateFirst, h1, findOne_cons, hfe, h2, fun h => h2 (h1 ▸ h)]
    · by_cases h3 : u.email = e'
      · have h2 : e ≠ e' := fun h => h1 (h ▸ h3)
        simp [updateFirst, h1, findOne_cons, h3, h2, Ne.symm h2]
      · simp [updateFirst, h1, findOne_cons, h3, ih]

/-- A record of the collection untouched by an email-preserving `updateFirst`
at another email. -/
theorem findOne_updateFirst_ne (f : UserRecord → UserRecord)
    (hf : ∀ u, (f u).email = u.email) (db : List UserRecord) (e e' : String)
    (h : e ≠ e') :
    findOne (updateFirst db e f) e' = findOne db e' := by
  rw [findOne_updateFirst f hf db e e', if_neg h]

/-- Looking up the email targeted by an email-preserving `updateFirst`. -/
theorem findOne_updateFirst_eq (f : UserRecord → UserRecord)
    (hf : ∀ u, (f u).email = u.email) (db : List UserRecord) (e : String) :
    findOne (updateFirst db e f) e = (findOne db e).map f := by
  rw [findOne_updateFirst f hf db e e, if_pos rfl]

/-- An update that preserves both `email` and `role` leaves every stored role
unchanged. -/
theorem roleOf_updateFirst (f : UserRecord → UserRecord)
    (hf : ∀ u, (f u).email = u.email) (hr : ∀ u, (f u).role = u.role)
    (db : List UserRecord) (e e' : String) :
    roleOf (updateFirst db e f) e' = roleOf db e' := by
  unfold roleOf
  rw [findOne_updateFirst f hf db e e']
  by_cases h : e = e'
  · rw [if_pos h]
    cases findOne db e' with
    | none => rfl
    | some u => simp [hr u]
  · rw [if_neg h]

/-- `POST /user` on an email that already has a record performs the
`$set {last_loggedIn}` update. -/
theorem postUser_existing (db : List UserRecord) (body : UserBody) (now : Nat)
    (r : UserRecord) (h : findOne db body.email = some r) :
    postUser db body now =
      (updateFirst db body.email (fun u => { u with last_loggedIn := now }), .updated) := by
  simp [postUser, h]

/-- `POST /user` on a fresh email inserts the prepared document. -/
theorem postUser_fresh (db : List UserRecord) (body : UserBody) (now : Nat)
    (h : findOne db body.email = none) :
    postUser db body now =
      (db ++ [{ email := body.email, name := body.name, role := "customer",
                status := body.status, created_at := now, last_loggedIn := now }],
       .inserted) := by
  simp [postUser, h]

/-- The collection after `POST /user` on an existing email. -/
theorem postUser_existing_fst (db : List UserRecord) (body : UserBody) (now : Nat)
    (r : UserRecord) (h : findOne db body.email = some r) :
    (postUser db body now).1 =
      updateFirst db body.email (fun u => { u with last_loggedIn := now }) := by
  rw [postUser_existing db body now r h]

/-- The collection after `POST /user` on a fresh email. -/
theorem postUser_fresh_fst (db : List UserRecord) (body : UserBody) (now : Nat)
    (h : findOne db body.email = none) :
    (postUser db body now).1 =
      db ++ [{ email := body.email, name := body.name, role := "customer",
               status := body.status, created_at := now, last_loggedIn := now }] := by
  rw [postUser_fresh db body now h]

/-- The collection after an authenticated `PATCH /became-seller-request/:email`. -/
theorem becameSellerRequest_ok_fst (db : List UserRecord) (cookieToken : Option Token)
    (secret : String) (now : Nat) (pathEmail : String) (c : Claim)
    (hv : verifyToken cookieToken secret now = .ok c) :
    (becameSellerRequest db cookieToken secret now pathEmail).1 =
      updateFirst db pathEmail (fun u => { u with status := some "requested" }) := by
  simp [becameSellerRequest, hv]

/-! The claims. -/

/-- C1, as stated, is false: `PATCH /became-seller-request/:email` never
compares the credential's email with the path email. Concretely, a verified
credential for `a@x.com` used against path email `b@x.com` is not rejected
with Forbidden: the request succeeds and sets `status = "requested"` on
`b@x.com`'s record. -/
theorem C1_cross_account_counterexample :
    ("a@x.com" : String) ≠ "b@x.com" ∧
    verifyToken (some tokenA) "secret" 0 = .ok ⟨"a@x.com"⟩ ∧
    becameSellerRequest [recB] (some tokenA) "secret" 0 "b@x.com" =
      ([{ recB with status := some "requested" }], .ok ()) := by
  refine ⟨by decide, rfl, rfl⟩

/-- C1 (amended): for every request to `requestSellerPromotion` carrying a
verified credential, the operation sets `status = "requested"` on the path
email's record (when one exists) and succeeds, regardless of whether the
credential's embedded email equals the path email; cross-account attempts are
not rejected. -/
theorem C1_no_ownership_check (db : List UserRecord) (cookieToken : Option Token)
    (secret : String) (now : Nat) (pathEmail : String) (c : Claim)
    (hv : verifyToken cookieToken secret now = .ok c) :
    becameSellerRequest db cookieToken secret now pathEmail =
      (updateFirst db pathEmail (fun u => { u with status := some "requested" }), .ok ()) := by
  simp [becameSellerRequest, hv]

/-- C1 witness: the amended statement at a concrete cross-account input. -/
theorem C1_no_ownership_check_witness :
    becameSellerRequest [recB] (some tokenA) "secret" 0 "b@x.com" =
      (updateFirst [recB] "b@x.com" (fun u => { u with status := some "requested" }), .ok ()) :=
  C1_no_ownership_check [recB] (some tokenA) "secret" 0 "b@x.com" ⟨"a@x.com"⟩ rfl

/-- C2: a valid credential whose email has no stored record is rejected with
403 by every role-gated operation: `GET /all-users` and
`PATCH /user/role/update/:email` answer 403 (and the collection is unchanged,
so the underlying operation is not reached), and both role-gate middlewares
reject. -/
theorem C2_no_record_forbidden (db : List UserRecord) (cookieToken : Option Token)
    (secret : String) (now : Nat) (pathEmail newRole : String) (c : Claim)
    (hv : verifyToken cookieToken secret now = .ok c)
    (hn : findOne db c.email = none) :
    allUsers db cookieToken secret now = .error (403, "Admin only actions") ∧
    updateUserRole db cookieToken secret now pathEmail newRole =
      (db, .error (403, "Admin only actions")) ∧
    verifyAdmin db c.email = .error (403, "Admin only actions") ∧
    verifySeller db c.email = .error (403, "Seller only actions") := by
  have ha : verifyAdmin db c.email = .error (403, "Admin only actions") := by
    simp [verifyAdmin, hn]
  have hs : verifySeller db c.email = .error (403, "Seller only actions") := by
    simp [verifySeller, hn]
  refine ⟨?_, ?_, ha, hs⟩
  · simp [allUsers, hv, ha]
  · simp [updateUserRole, hv, ha]

/-- C2 witness: a valid token for `a@x.com` against an empty collection. -/
theorem C2_no_record_forbidden_witness :
    allUsers [] (some tokenA) "secret" 0 = .error (403, "Admin only actions") :=
  (C2_no_record_forbidden [] (some tokenA) "secret" 0 "b@x.com" "seller"
    ⟨"a@x.com"⟩ rfl rfl).1

/-- C3, as stated, is false: when no record exists for the email, the role
gate fails with 403 (Forbidden), not 404 (NotFound) — there is no NotFound
branch in `verifyAdmin`/`verifySeller`. -/
theorem C3_no_notfound_counterexample :
    findOne [] "a@x.com" = none ∧
    requireRole [] "a@x.com" "admin" "Admin only actions" =
      .error (403, "Admin only actions") ∧
    verifyAdmin [] "a@x.com" = .error (403, "Admin only actions") ∧
    (403 : Nat) ≠ 404 := by
  refine ⟨rfl, rfl, rfl, by decide⟩

/-- C3 (amended): `requireRole` fails with Forbidden (403) both when no record
exists for the email and when a record exists whose role differs from the
expected role, and allows otherwise; `verifyAdmin` and `verifySeller` are its
two instances. -/
theorem C3_role_gate_behavior (db : List UserRecord) (email expectedRole msg : String) :
    (findOne db email = none →
       requireRole db email expectedRole msg = .error (403, msg)) ∧
    (∀ u, findOne db email = some u → u.role ≠ expectedRole →
       requireRole db email expectedRole msg = .error (403, msg)) ∧
    (∀ u, findOne db email = some u → u.role = expectedRole →
       requireRole db email expectedRole msg = .ok ()) ∧
    verifyAdmin db email = requireRole db email "admin" "Admin only actions" ∧
    verifySeller db email = requireRole db email "seller" "Seller only actions" := by
  refine ⟨?_, ?_, ?_, ?_, ?_⟩
  · intro h
    simp [requireRole, h]
  · intro u hu hr
    simp [requireRole, hu, hr]
  · intro u hu hr
    simp [requireRole, hu, hr]
  · rfl
  · rfl

/-- C3 witness: the amended statement's no-record branch at a concrete input. -/
theorem C3_role_gate_behavior_witness :
    requireRole [] "w@x.com" "admin" "Admin only actions" =
      .error (403, "Admin only actions") :=
  (C3_role_gate_behavior [] "w@x.com" "admin" "Admin only actions").1 rfl

/-- C4, as stated, is false: `POST /user` inserts `req.body` wholesale after
overwriting only `role` and the timestamps, so a body that sends
`status = "verified"` for a fresh email creates a record whose status is
`"verified"`, not `none`. -/
theorem C4_client_status_counterexample :
    findOne [] bodyS.email = none ∧
    bodyS.status = some "verified" ∧
    postUser [] bodyS 5 =
      ([{ email := "a@x.com", name := "A", role := "customer",
          status := some "verified", created_at := 5, last_loggedIn := 5 }],
       .inserted) ∧
    (some "verified" : Option String) ≠ none := by
  refine ⟨rfl, rfl, rfl, by decide⟩

/-- C4 (amended): `POST /user` for an email with no existing record inserts a
record whose role is `"customer"`, whose `created_at` and `last_loggedIn` both
equal the current time, and whose `status` is exactly the client-supplied
status — in particular absent (`none`) only when the body sent none. -/
theorem C4_first_login_creates_customer (db : List UserRecord) (body : UserBody)
    (now : Nat) (h : findOne db body.email = none) :
    ∃ r, postUser db body now = (db ++ [r], .inserted) ∧
      r.email = body.email ∧ r.role = "customer" ∧ r.status = body.status ∧
      r.created_at = now ∧ r.last_loggedIn = now := by
  exact ⟨_, postUser_fresh db body now h, rfl, rfl, rfl, rfl, rfl⟩

/-- C4 witness: first login of `a@x.com` (a body with no status field) against
an empty collection. -/
theorem C4_first_login_creates_customer_witness :
    ∃ r, postUser [] bodyA 5 = ([] ++ [r], .inserted) ∧
      r.email = bodyA.email ∧ r.role = "customer" ∧ r.status = bodyA.status ∧
      r.created_at = 5 ∧ r.last_loggedIn = 5 :=
  C4_first_login_creates_customer [] bodyA 5 rfl

/-- C5: after a second `POST /user` for the same email, the stored record is
the record after the first call with only `last_loggedIn` replaced by the
second call's time (so `role`, `status`, `created_at`, `email` and `name` are
unchanged), and every other email's record is untouched. -/
theorem C5_second_login_touches_only_timestamp (db : List UserRecord)
    (body : UserBody) (now₁ now₂ : Nat) (r₁ : UserRecord)
    (h₁ : findOne (postUser db body now₁).1 body.email = some r₁) :
    findOne (postUser (postUser db body now₁).1 body now₂).1 body.email =
      some { r₁ with last_loggedIn := now₂ } ∧
    ∀ e, e ≠ body.email →
      findOne (postUser (postUser db body now₁).1 body now₂).1 e =
        findOne (postUser db body now₁).1 e := by
  rw [postUser_existing_fst _ body now₂ r₁ h₁]
  constructor
  · rw [findOne_updateFirst_eq (fun u => { u with last_loggedIn := now₂ })
      (fun u => rfl), h₁]
    rfl
  · intro e he
    exact findOne_updateFirst_ne (fun u => { u with last_loggedIn := now₂ })
      (fun u => rfl) _ body.email e (fun h => he h.symm)

/-- C5 witness: two logins of `a@x.com` at instants 1 and 2; after the second,
the record keeps `created_at = 1`, `role = "customer"`, `status = none` and has
`last_loggedIn = 2`. -/
theorem C5_second_login_touches_only_timestamp_witness :
    findOne (postUser (postUser [] bodyA 1).1 bodyA 2).1 bodyA.email =
      some { email := "a@x.com", name := "A", role := "customer", status := none,
             created_at := 1, last_loggedIn := 2 } :=
  (C5_second_login_touches_only_timestamp [] bodyA 1 2
    { email := "a@x.com", name := "A", role := "customer", status := none,
      created_at := 1, last_loggedIn := 1 } rfl).1

/-- C6: Token Service round trip — verifying the cookie issued by
`POST /jwt` for the claim `{email: "a@x.com"}` at the issuing instant succeeds
and yields exactly that claim, for every secret and environment. -/
theorem C6_token_round_trip (secret : String) (now : Nat) (production : Bool) :
    verifyToken (some (postJwt ⟨"a@x.com"⟩ secret now production).cookieValue)
      secret now = .ok ⟨"a@x.com"⟩ := by
  have h : ¬ (now + 365 * 86400 < now) := by omega
  simp [verifyToken, postJwt, jwtSign, jwtVerify, h]

/-- C7: over the non-admin operations of the slice, a stored role changes only
at creation (to `"customer"`): `POST /user` either leaves every stored role
unchanged or, for a fresh email, creates it with role `"customer"`;
`PATCH /became-seller-request/:email` never changes any stored role; and
`PATCH /user/role/update/:email` either leaves the collection unchanged or the
admin gate (valid credential + stored admin role) passed. -/
theorem C7_role_changes_only_by_admin (db : List UserRecord) (body : UserBody)
    (cookieToken : Option Token) (secret : String) (now : Nat)
    (pathEmail newRole e : String) :
    (roleOf (postUser db body now).1 e = roleOf db e ∨
      (roleOf db e = none ∧ e = body.email ∧
        roleOf (postUser db body now).1 e = some "customer")) ∧
    roleOf (becameSellerRequest db cookieToken secret now pathEmail).1 e = roleOf db e ∧
    ((updateUserRole db cookieToken secret now pathEmail newRole).1 = db ∨
      ∃ c, verifyToken cookieToken secret now = .ok c ∧
        verifyAdmin db c.email = .ok ()) := by
  refine ⟨?_, ?_, ?_⟩
  · cases hfind : findOne db body.email with
    | some r =>
      left
      rw [postUser_existing_fst db body now r hfind]
      exact roleOf_updateFirst (fun u => { u with last_loggedIn := now })
        (fun u => rfl) (fun u => rfl) db body.email e
    | none =>
      by_cases he : e = body.email
      · right
        subst he
        refine ⟨by simp [roleOf, hfind], rfl, ?_⟩
        rw [postUser_fresh_fst db body now hfind]
        simp [roleOf, findOne_append, hfind, findOne_cons]
      · left
        have hne : ¬ body.email = e := fun h => he h.symm
        rw [postUser_fresh_fst db body now hfind]
        have hsingle :
            findOne [{ email := body.email, name := body.name, role := "customer",
                       status := body.status, created_at := now, last_loggedIn := now }] e
              = none := by
          simp [findOne_cons, findOne_nil, hne]
        simp [roleOf, findOne_append, hsingle]
  · cases hv : verifyToken cookieToken secret now with
    | error err => simp [becameSellerRequest, hv]
    | ok c =>
      rw [becameSellerRequest_ok_fst db cookieToken secret now pathEmail c hv]
      exact roleOf_updateFirst (fun u => { u with status := some "requested" })
        (fun u => rfl) (fun u => rfl) db pathEmail e
  · cases hv : verifyToken cookieToken secret now with
    | error err => left; simp [updateUserRole, hv]
    | ok c =>
      cases ha : verifyAdmin db c.email with
      | error err => left; simp [updateUserRole, hv, ha]
      | ok u => right; exact ⟨c, rfl, by rw [ha]⟩

/-- C8, as stated, is false: the cookie attribute profiles of issuance and
logout are not identical — `POST /jwt` sets `httpOnly: true` while
`GET /logout`'s `clearCookie` options omit `httpOnly` (in production, and
likewise in development). -/
theorem C8_httponly_mismatch_counterexample :
    (postJwt ⟨"a@x.com"⟩ "secret" 0 true).cookieOpts.httpOnly = some true ∧
    (getLogout true).clearOpts.httpOnly = none ∧
    (postJwt ⟨"a@x.com"⟩ "secret" 0 true).cookieOpts ≠ (getLogout true).clearOpts := by
  refine ⟨rfl, rfl, by decide⟩

/-- C8 (amended): `GET /logout` clears the same cookie name with an
immediately-expiring value (`maxAge = 0`) and matches issuance on the `secure`
and `sameSite` attributes, but not on `httpOnly`: issuance sets
`httpOnly = true` while the clearing options omit it. -/
theorem C8_logout_profile (body : Claim) (secret : String) (now : Nat)
    (production : Bool) :
    (getLogout production).clearedCookieName =
      (postJwt body secret now production).cookieName ∧
    (getLogout production).clearOpts.maxAge = some 0 ∧
    (getLogout production).clearOpts.secure =
      (postJwt body secret now production).cookieOpts.secure ∧
    (getLogout production).clearOpts.sameSite =
      (postJwt body secret now production).cookieOpts.sameSite ∧
    (postJwt body secret now production).cookieOpts.httpOnly = some true ∧
    (getLogout production).clearOpts.httpOnly = none := by
  exact ⟨rfl, rfl, rfl, rfl, rfl, rfl⟩

/-- C9: `POST /jwt` is reachable without any credential and signs the
caller-supplied body wholesale: for every body it answers `{success: true}`
and sets a cookie whose payload is exactly that body, which then verifies to
the claimed email — ownership of the email is never proved. -/
theorem C9_issuance_unauthenticated (body : Claim) (secret : String) (now : Nat)
    (production : Bool) :
    (postJwt body secret now production).success = true ∧
    (postJwt body secret now production).cookieValue.payload = body ∧
    verifyToken (some (postJwt body secret now production).cookieValue) secret now =
      .ok body := by
  refine ⟨rfl, rfl, ?_⟩
  have h : ¬ (now + 365 * 86400 < now) := by omega
  simp [verifyToken, postJwt, jwtSign, jwtVerify, h]

/-- C10: `POST /user` overwrites any client-supplied role with `"customer"`:
for every client role (including `some "admin"` or `some "seller"`) and every
rest of the body, a record created for a fresh email has role `"customer"`. -/
theorem C10_client_role_overwritten (db : List UserRecord)
    (email name : String) (clientRole clientStatus : Option String) (now : Nat)
    (h : findOne db email = none) :
    ∃ r, postUser db ⟨email, name, clientRole, clientStatus⟩ now =
        (db ++ [r], .inserted) ∧
      r.role = "customer" ∧ r.email = email := by
  exact ⟨_, postUser_fresh db ⟨email, name, clientRole, clientStatus⟩ now h, rfl, rfl⟩

/-- C10 witness: a body claiming `role = "admin"` still creates a customer. -/
theorem C10_client_role_overwritten_witness :
    ∃ r, postUser [] ⟨"a@x.com", "A", some "admin", none⟩ 0 = ([] ++ [r], .inserted) ∧
      r.role = "customer" ∧ r.email = "a@x.com" :=
  C10_client_role_overwritten [] "a@x.com" "A" (some "admin") none 0 rfl
